import Mathlib

/-!
Shallow embedding of the `companies_house_abm` agent-based model core
(`src/companies_house_abm/abm/`), with theorems settling the specification
claims about firms, households, banks, the central bank, the credit and
goods markets, the evaluator, and the scheduler wiring.

Real-valued program quantities are modelled as rationals `ℚ`; every source
constant used here (0.05, 0.85, 1e-9, ...) is an exact rational.  Python's
`rng.normal(...)` draws are modelled as explicit rational draw values; a
Python `rng=None` argument is modelled as `Option.none`.
-/

/-- The 1e-9 epsilon floor used by the source for guarded divisions. -/
def eps : ℚ := 1 / 1000000000

/-- Python `min(a, b)`: the first argument when the two are equal. -/
def pymin (a b : ℚ) : ℚ := if a ≤ b then a else b

/-- Python `max(a, b)`: the first argument when the two are equal. -/
def pymax (a b : ℚ) : ℚ := if b ≤ a then a else b

/-- Python `abs(a)`. -/
def pyabs (a : ℚ) : ℚ := if a < 0 then -a else a

/-! ## Configuration records (`abm/config.py`) -/

/-- `FirmConfig` (config.py lines 27-49): population-level firm settings.
Only the fields relevant to the claims are represented. -/
structure FirmConfig where
  sample_size : ℕ := 50000
  entry_rate : ℚ := 2 / 100
  exit_threshold : ℚ := -(1 / 2)

/-- `FirmBehaviorConfig` (config.py lines 52-65). -/
structure FirmBehaviorConfig where
  price_markup : ℚ := 15 / 100
  markup_adjustment_speed : ℚ := 1 / 10
  inventory_target_ratio : ℚ := 1 / 5
  capacity_utilization_target : ℚ := 85 / 100
  investment_sensitivity : ℚ := 2
  wage_adjustment_speed : ℚ := 1 / 20
  satisficing_aspiration_rate : ℚ := 1 / 2
  satisficing_window : ℕ := 4
  markup_noise_std : ℚ := 0
deriving DecidableEq

/-- `HouseholdBehaviorConfig` (config.py lines 82-90). -/
structure HouseholdBehaviorConfig where
  job_search_intensity : ℚ := 3 / 10
  reservation_wage_ratio : ℚ := 9 / 10
  consumption_smoothing : ℚ := 7 / 10
  expectation_adaptation_speed : ℚ := 3 / 10
deriving DecidableEq

/-- `BankConfig` (config.py lines 93-100). -/
structure BankConfig where
  capital_requirement : ℚ := 1 / 10
  reserve_requirement : ℚ := 1 / 100
  risk_weight : ℚ := 1
deriving DecidableEq

/-- `BankBehaviorConfig` (config.py lines 103-112). -/
structure BankBehaviorConfig where
  base_interest_markup : ℚ := 2 / 100
  risk_premium_sensitivity : ℚ := 5 / 100
  lending_threshold : ℚ := 3 / 10
  capital_buffer : ℚ := 2 / 100
  credit_score_noise_std : ℚ := 0
deriving DecidableEq

/-- `TaylorRuleConfig` (config.py lines 115-124). -/
structure TaylorRuleConfig where
  active : Bool := true
  inflation_target : ℚ := 2 / 100
  inflation_coefficient : ℚ := 3 / 2
  output_gap_coefficient : ℚ := 1 / 2
  interest_rate_smoothing : ℚ := 4 / 5
  lower_bound : ℚ := 1 / 1000
deriving DecidableEq

/-- `CreditMarketConfig` (config.py lines 168-174). -/
structure CreditMarketConfig where
  rationing : Bool := true
  collateral_requirement : ℚ := 1 / 2
  default_rate_base : ℚ := 1 / 100
deriving DecidableEq

/-! ## Firm (`abm/agents/firm.py`) -/

/-- Mutable state of a `Firm` (firm.py lines 41-79).  The optional
`behavior` field mirrors `self._behavior`, which may be `None` in the
source, in which case each method falls back to hard-coded constants. -/
structure Firm where
  employees : ℕ := 0
  wage_bill : ℚ := 0
  turnover : ℚ := 0
  capital : ℚ := 0
  cash : ℚ := 0
  debt : ℚ := 0
  equity : ℚ := 0
  price : ℚ := 1
  output : ℚ := 0
  inventory : ℚ := 0
  profit : ℚ := 0
  markup : ℚ := 15 / 100
  vacancies : ℕ := 0
  wage_rate : ℚ := 0
  desired_production : ℚ := 0
  bankrupt : Bool := false
  profit_rate_history : List ℚ := []
  behavior : Option FirmBehaviorConfig := none
deriving DecidableEq

/-- Rolling-profit-rate history push (firm.py lines 201-203): append the new
rate, then `pop(0)` once when the list has grown past `window`. -/
def pushBounded (window : ℕ) (hist : List ℚ) (x : ℚ) : List ℚ :=
  let h := hist ++ [x]
  if window < h.length then h.drop 1 else h

/-- The rolling profit rate appended by `adapt_markup`
(firm.py line 200): `profit / max(abs(turnover), 1e-9)`. -/
def Firm.profit_rate (f : Firm) : ℚ :=
  f.profit / pymax (pyabs f.turnover) eps

/-- `markup_adjustment_speed` with the `None`-behavior fallback
(firm.py lines 188-194). -/
def Firm.speedOf (f : Firm) : ℚ :=
  match f.behavior with
  | some b => b.markup_adjustment_speed
  | none => 1 / 10

/-- `satisficing_aspiration_rate` with fallback (firm.py lines 188-196). -/
def Firm.aspirationOf (f : Firm) : ℚ :=
  match f.behavior with
  | some b => b.satisficing_aspiration_rate
  | none => 1 / 2

/-- `satisficing_window` with fallback (firm.py lines 188-196). -/
def Firm.windowOf (f : Firm) : ℕ :=
  match f.behavior with
  | some b => b.satisficing_window
  | none => 4

/-- `markup_noise_std` with fallback (firm.py lines 188-197). -/
def Firm.noiseStdOf (f : Firm) : ℚ :=
  match f.behavior with
  | some b => b.markup_noise_std
  | none => 0

/-- The history after `adapt_markup` has appended the current profit rate
(firm.py lines 199-203). -/
def Firm.historyAfterAppend (f : Firm) : List ℚ :=
  pushBounded f.windowOf f.profit_rate_history f.profit_rate

/-- Mean of a profit-rate history (firm.py lines 205-207):
`sum(history) / len(history)`. -/
def historyMean (hist : List ℚ) : ℚ :=
  hist.sum / (hist.length : ℚ)

/-- The satisficing test of `adapt_markup` (firm.py line 211):
`len(history) >= 2 and avg_profit_rate >= aspiration`, evaluated on the
history after the append.  Note: the source compares the length against the
constant 2, not against the full window size. -/
def Firm.satisficedAfterAppend (f : Firm) : Bool :=
  decide (2 ≤ f.historyAfterAppend.length ∧
    f.aspirationOf ≤ historyMean f.historyAfterAppend)

/-- The deterministic markup adjustment computed by `adapt_markup`
(firm.py lines 209-214), before any noise is added. -/
def Firm.markupAdjustment (f : Firm) (excess_demand : ℚ) : ℚ :=
  if f.satisficedAfterAppend then f.speedOf * excess_demand * (1 / 10)
  else f.speedOf * excess_demand

/-- The optional-noise step of `adapt_markup` (firm.py lines 216-218):
when an rng is supplied (`some d`, where `d` models the value
`rng.normal(0, noise_std)` would return) and `noise_std > 0`, the draw is
added to the adjustment; `none` models `rng=None`. -/
def Firm.noisedAdjustment (f : Firm) (excess_demand : ℚ) (rngDraw : Option ℚ) : ℚ :=
  match rngDraw with
  | some d =>
    if 0 < f.noiseStdOf then f.markupAdjustment excess_demand + d
    else f.markupAdjustment excess_demand
  | none => f.markupAdjustment excess_demand

/-- The guarded markup write of `adapt_markup` (firm.py lines 220-221):
the markup is set to `max(0.01, markup + adjustment)` when
`adjustment > 0 or markup > 0.01`, else left unchanged. -/
def applyMarkupFloor (markup adj : ℚ) : ℚ :=
  if 0 < adj ∨ 1 / 100 < markup then pymax (1 / 100) (markup + adj)
  else markup

/-- `Firm.adapt_markup(excess_demand, rng)` (firm.py lines 170-221):
append the profit rate to the bounded history, compute the (possibly
noised) adjustment, and apply the guarded floor write. -/
def Firm.adapt_markup (f : Firm) (excess_demand : ℚ) (rngDraw : Option ℚ) : Firm :=
  { f with
    profit_rate_history := f.historyAfterAppend
    markup := applyMarkupFloor f.markup (f.noisedAdjustment excess_demand rngDraw) }

/-- A finite sequence of `adapt_markup` calls, each with its own excess
demand and optional rng draw. -/
def Firm.adaptMarkupCalls (f : Firm) (calls : List (ℚ × Option ℚ)) : Firm :=
  calls.foldl (fun s c => s.adapt_markup c.1 c.2) f

/-- The bankruptcy threshold read by `_update_financials`
(firm.py lines 158-162): `capacity_utilization_target * -1` when a
behavior config is present, else the constant `-0.5`. -/
def Firm.bankruptcyThreshold (f : Firm) : ℚ :=
  match f.behavior with
  | some b => -b.capacity_utilization_target
  | none => -(1 / 2)

/-- `Firm._update_financials` (firm.py lines 144-164): realise sales out of
inventory, recompute turnover, wage bill, profit, cash and equity, then run
the bankruptcy check. -/
def Firm.update_financials (f : Firm) : Firm :=
  let sales_quantity := pymin f.inventory (f.turnover / pymax f.price eps)
  let revenue := sales_quantity * f.price
  let inventory2 := f.inventory - sales_quantity
  let wage_bill2 := (f.employees : ℚ) * f.wage_rate
  let profit2 := revenue - wage_bill2
  let equity2 := f.equity + profit2
  let bankrupt2 :=
    if equity2 < 0 ∧ 0 < f.capital ∧
        equity2 / f.capital < f.bankruptcyThreshold then true
    else f.bankrupt
  { f with
    inventory := inventory2
    turnover := revenue
    wage_bill := wage_bill2
    profit := profit2
    cash := f.cash + profit2
    equity := equity2
    bankrupt := bankrupt2 }

/-! ## Household (`abm/agents/household.py`) -/

/-- Mutable state of a `Household` (household.py lines 31-54).  Note: the
source class stores no expected-income field; its attributes are exactly
those below. -/
structure Household where
  income : ℚ := 0
  wealth : ℚ := 0
  mpc : ℚ := 4 / 5
  employed : Bool := false
  wage : ℚ := 0
  consumption : ℚ := 0
  savings : ℚ := 0
  transfer_income : ℚ := 0
  behavior : HouseholdBehaviorConfig := {}
deriving DecidableEq

/-- `Household._receive_income` (household.py lines 71-74). -/
def Household.receive_income (h : Household) : Household :=
  let wage_income := if h.employed then h.wage else 0
  { h with income := wage_income + h.transfer_income }

/-- `Household._consume` (household.py lines 76-88): desired consumption is
`mpc * income + (1 - smoothing) * 0.04 * wealth`, clamped to
`[0, income + wealth]`.  The source reads the realised `self.income`
set by `_receive_income`; no expected-income term exists. -/
def Household.consume (h : Household) : Household :=
  let smoothing := h.behavior.consumption_smoothing
  let c_income := h.mpc * h.income
  let c_wealth := (1 - smoothing) * (4 / 100) * h.wealth
  let desired := c_income + c_wealth
  { h with consumption := pymax 0 (pymin desired (h.income + h.wealth)) }

/-- `Household._save` (household.py lines 90-93). -/
def Household.save (h : Household) : Household :=
  let savings2 := h.income - h.consumption
  { h with savings := savings2, wealth := h.wealth + savings2 }

/-- `Household.step` (household.py lines 60-69): receive income, consume,
save. -/
def Household.step (h : Household) : Household :=
  h.receive_income.consume.save

/-- Spec-side model of the household step, for comparison with the code.
Modelled from the spec (section 4.2): the spec prescribes an adaptive
expected income, updated as
`expected := alpha * realised + (1 - alpha) * expected` with
`alpha = expectation_adaptation_speed`, and consumption out of the
EXPECTED income: `mpc * expected + (1 - smoothing) * 0.04 * wealth`,
clamped to `[0, realised + wealth]`.  The state carries the extra
`expected_income` field the spec requires. -/
structure HouseholdSpec where
  base : Household
  expected_income : ℚ
deriving DecidableEq

/-- The household step as the spec describes it (spec sections 4.2 and 3.1),
for refinement comparison with `Household.step`. -/
def HouseholdSpec.step (h : HouseholdSpec) : HouseholdSpec :=
  let b1 := h.base.receive_income
  let alpha := b1.behavior.expectation_adaptation_speed
  let expected2 := alpha * b1.income + (1 - alpha) * h.expected_income
  let smoothing := b1.behavior.consumption_smoothing
  let desired := b1.mpc * expected2 + (1 - smoothing) * (4 / 100) * b1.wealth
  let consumption2 := pymax 0 (pymin desired (b1.income + b1.wealth))
  let b2 := { b1 with consumption := consumption2 }
  { base := b2.save, expected_income := expected2 }

/-! ## Bank (`abm/agents/bank.py`) -/

/-- Mutable state of a `Bank` (bank.py lines 34-57), with its config
records (`self._config`, `self._behavior`).  The source's `None`-config
fallback constants all coincide with the config defaults above. -/
structure Bank where
  capital : ℚ := 0
  reserves : ℚ := 0
  loans : ℚ := 0
  deposits : ℚ := 0
  non_performing_loans : ℚ := 0
  interest_rate : ℚ := 5 / 100
  profit : ℚ := 0
  interest_income : ℚ := 0
  interest_expense : ℚ := 0
  config : BankConfig := {}
  behavior : BankBehaviorConfig := {}
deriving DecidableEq

/-- `Bank.capital_ratio` (bank.py lines 63-70): returns 1 when
risk-weighted loans are non-positive. -/
def Bank.capital_ratio (b : Bank) : ℚ :=
  let risk_weighted := b.loans * b.config.risk_weight
  if risk_weighted ≤ 0 then 1 else b.capital / risk_weighted

/-- `Bank.meets_capital_requirement` (bank.py lines 79-84). -/
def Bank.meets_capital_requirement (b : Bank) : Bool :=
  decide (b.config.capital_requirement + b.behavior.capital_buffer ≤ b.capital_ratio)

/-- `Bank._set_lending_rate(policy_rate)` (bank.py lines 109-114):
`rate = policy_rate + base_interest_markup + risk_premium_sensitivity *
(NPL / loans)`, with the NPL ratio taken as 0 when `loans <= 0`. -/
def Bank.set_lending_rate (b : Bank) (policy_rate : ℚ) : Bank :=
  let npl_ratio := if 0 < b.loans then b.non_performing_loans / b.loans else 0
  { b with interest_rate :=
      policy_rate + b.behavior.base_interest_markup +
        b.behavior.risk_premium_sensitivity * npl_ratio }

/-- `Bank.set_policy_rate(rate)` (bank.py lines 101-107): delegates to
`_set_lending_rate` with the given rate. -/
def Bank.set_policy_rate (b : Bank) (rate : ℚ) : Bank :=
  b.set_lending_rate rate

/-- `Bank._calculate_income` (bank.py lines 116-120). -/
def Bank.calculate_income (b : Bank) : Bank :=
  { b with
    interest_income := b.interest_rate * b.loans
    interest_expense := pymax (b.interest_rate - 2 / 100) 0 * b.deposits }

/-- `Bank._update_capital` (bank.py lines 122-126). -/
def Bank.update_capital (b : Bank) : Bank :=
  let provisions := b.non_performing_loans * (1 / 2)
  let profit2 := b.interest_income - b.interest_expense - provisions
  { b with profit := profit2, capital := b.capital + profit2 }

/-- `Bank.step` (bank.py lines 90-99).  The source calls
`self._set_lending_rate(policy_rate=0.05)` with the literal constant
`0.05` — it does not read any stored policy rate. -/
def Bank.step (b : Bank) : Bank :=
  ((b.set_lending_rate (5 / 100)).calculate_income).update_capital

/-- `Bank.evaluate_loan(amount, borrower_equity, borrower_revenue, rng)`
(bank.py lines 132-187).  `rngDraw = some n` models a supplied rng whose
`rng.normal(0, noise_std)` would return `n`; `none` models `rng=None`.
The noisy path runs only when `noise_std > 0 and rng is not None`. -/
def Bank.evaluate_loan (b : Bank) (amount borrower_equity borrower_revenue : ℚ)
    (rngDraw : Option ℚ) : Bool :=
  if ¬ b.meets_capital_requirement then false
  else
    let collateral_req : ℚ := 1 / 2
    let threshold := b.behavior.lending_threshold
    let noise_std := b.behavior.credit_score_noise_std
    if borrower_revenue ≤ 0 then false
    else
      match rngDraw with
      | some noise =>
        if 0 < noise_std then
          let collateral_score := borrower_equity / pymax (amount * collateral_req) eps
          let coverage_score :=
            (borrower_revenue / pymax (amount * b.interest_rate) eps) / pymax threshold eps
          let composite := (1 / 2) * collateral_score + (1 / 2) * coverage_score
          decide (1 < composite + noise)
        else
          if borrower_equity < amount * collateral_req then false
          else
            decide (threshold ≤ borrower_revenue / pymax (amount * b.interest_rate) eps)
      | none =>
        if borrower_equity < amount * collateral_req then false
        else
          decide (threshold ≤ borrower_revenue / pymax (amount * b.interest_rate) eps)

/-- `Bank.extend_loan(amount)` (bank.py lines 189-200): loans and deposits
both grow by the amount; returns the current rate. -/
def Bank.extend_loan (b : Bank) (amount : ℚ) : ℚ × Bank :=
  (b.interest_rate, { b with loans := b.loans + amount, deposits := b.deposits + amount })

/-- `Bank.record_default(amount)` (bank.py lines 202-208). -/
def Bank.record_default (b : Bank) (amount : ℚ) : Bank :=
  { b with non_performing_loans := b.non_performing_loans + amount }

/-! ## Central bank (`abm/agents/central_bank.py`) -/

/-- State of the `CentralBank` (central_bank.py lines 30-45): at
construction `policy_rate`, `current_inflation` and `_previous_rate` all
equal the inflation target. -/
structure CentralBank where
  taylor : TaylorRuleConfig := {}
  policy_rate : ℚ := 2 / 100
  inflation_target : ℚ := 2 / 100
  current_inflation : ℚ := 2 / 100
  output_gap : ℚ := 0
  previous_rate : ℚ := 2 / 100
deriving DecidableEq

/-- The constructor (central_bank.py lines 36-45) given a config. -/
def CentralBank.mk_from_config (cfg : TaylorRuleConfig) : CentralBank :=
  { taylor := cfg
    policy_rate := cfg.inflation_target
    inflation_target := cfg.inflation_target
    current_inflation := cfg.inflation_target
    output_gap := 0
    previous_rate := cfg.inflation_target }

/-- `CentralBank.update_observations` (central_bank.py lines 55-63). -/
def CentralBank.update_observations (cb : CentralBank)
    (inflation output_gap : ℚ) : CentralBank :=
  { cb with current_inflation := inflation, output_gap := output_gap }

/-- The Taylor-rule target rate (central_bank.py lines 76-80). -/
def CentralBank.target_rate (cb : CentralBank) : ℚ :=
  cb.inflation_target +
    cb.taylor.inflation_coefficient * (cb.current_inflation - cb.inflation_target) +
    cb.taylor.output_gap_coefficient * cb.output_gap

/-- `CentralBank._set_policy_rate` / `step` (central_bank.py lines 51-86):
no-op when the rule is inactive; otherwise smooth against
`self._previous_rate`, then set `_previous_rate` to the pre-step
`policy_rate` and `policy_rate` to `max(smoothed, lower_bound)`. -/
def CentralBank.step (cb : CentralBank) : CentralBank :=
  if ¬ cb.taylor.active then cb
  else
    let rho := cb.taylor.interest_rate_smoothing
    let smoothed := rho * cb.previous_rate + (1 - rho) * cb.target_rate
    { cb with
      previous_rate := cb.policy_rate
      policy_rate := pymax smoothed cb.taylor.lower_bound }

/-! ## Credit market (`abm/markets/credit.py`) -/

/-- Per-period counters of the `CreditMarket` (credit.py lines 34-44). -/
structure CreditMarketState where
  total_lending : ℚ := 0
  total_applications : ℕ := 0
  total_approvals : ℕ := 0
  total_rejections : ℕ := 0
  average_rate : ℚ := 0
  total_defaults : ℕ := 0
deriving DecidableEq

/-- `CreditMarket._process_defaults` for one bankrupt firm
(credit.py lines 85-95): every bank holding any loans records a default of
`min(firm.debt, bank.loans) * default_rate_base`, and the default counter
is incremented once per such bank. -/
def processDefaultsOneFirm (default_base : ℚ) (f : Firm) (banks : List Bank)
    (counter : ℕ) : List Bank × ℕ :=
  if f.bankrupt ∧ 0 < f.debt then
    (banks.map (fun b =>
        if 0 < b.loans then b.record_default (pymin f.debt b.loans * default_base)
        else b),
      counter + (banks.filter (fun b => decide (0 < b.loans))).length)
  else (banks, counter)

/-- `CreditMarket._process_defaults` (credit.py lines 85-95) over the whole
firm population, returning the updated banks and the default counter. -/
def process_defaults (cfg : CreditMarketConfig) (firms : List Firm)
    (banks : List Bank) : List Bank × ℕ :=
  firms.foldl
    (fun acc f => processDefaultsOneFirm cfg.default_rate_base f acc.1 acc.2)
    (banks, 0)

/-- Accumulator threaded through `_process_applications`: the mutated bank
list, the running round-robin index `bank_idx`, the processed firms, the
list of approved rates, and the market counters. -/
structure ApplicationAcc where
  banks : List Bank
  bank_idx : ℕ
  firms_done : List Firm
  rates : List ℚ
  market : CreditMarketState
deriving DecidableEq

/-- One iteration of the application loop in
`CreditMarket._process_applications` (credit.py lines 106-136).  The
source calls `bank.evaluate_loan(amount, borrower_equity=firm.equity,
borrower_revenue=firm.turnover)` with NO rng argument, so the bank's
`rng` parameter defaults to `None`: the evaluation is deterministic even
when `credit_score_noise_std > 0`. -/
def processOneApplication (rationing : Bool) (acc : ApplicationAcc) (f : Firm) :
    ApplicationAcc :=
  if f.bankrupt then { acc with firms_done := acc.firms_done ++ [f] }
  else if 0 ≤ f.cash then { acc with firms_done := acc.firms_done ++ [f] }
  else
    let amount := pyabs f.cash
    let n := acc.banks.length
    let i := acc.bank_idx % n
    let bank := acc.banks.getD i {}
    let approved := bank.evaluate_loan amount f.equity f.turnover none
    let m1 := { acc.market with total_applications := acc.market.total_applications + 1 }
    if approved ∨ ¬ rationing then
      let rb := bank.extend_loan amount
      { banks := acc.banks.set i rb.2
        bank_idx := acc.bank_idx + 1
        firms_done := acc.firms_done ++
          [{ f with cash := f.cash + amount, debt := f.debt + amount }]
        rates := acc.rates ++ [rb.1]
        market := { m1 with
          total_approvals := m1.total_approvals + 1
          total_lending := m1.total_lending + amount } }
    else
      { banks := acc.banks
        bank_idx := acc.bank_idx + 1
        firms_done := acc.firms_done ++ [f]
        rates := acc.rates
        market := { m1 with total_rejections := m1.total_rejections + 1 } }

/-- `CreditMarket._process_applications` (credit.py lines 97-139).  The
`rngDraws` argument models the state of the scheduler-owned numpy
generator that is in scope during clearing; the source never passes it to
`evaluate_loan` (the market neither stores nor receives an rng), so it is
never consumed. -/
def process_applications (rationing : Bool) (rngDraws : ℕ → ℚ)
    (firms : List Firm) (banks : List Bank) :
    List Firm × List Bank × CreditMarketState :=
  if banks.isEmpty then (firms, banks, {})
  else
    let acc := firms.foldl (processOneApplication rationing)
      ⟨banks, 0, [], [], {}⟩
    let avg := if acc.rates.isEmpty then acc.market.average_rate
      else acc.rates.sum / (acc.rates.length : ℚ)
    (acc.firms_done, acc.banks, { acc.market with average_rate := avg })

/-- `CreditMarket.clear` (credit.py lines 60-74): reset counters, process
prior defaults, then process applications. -/
def creditMarketClear (cfg : CreditMarketConfig) (rngDraws : ℕ → ℚ)
    (firms : List Firm) (banks : List Bank) :
    List Firm × List Bank × CreditMarketState :=
  let d := process_defaults cfg firms banks
  let a := process_applications cfg.rationing rngDraws firms d.1
  (a.1, a.2.1, { a.2.2 with total_defaults := d.2 })

/-! ## Goods market (`abm/markets/goods.py`) -/

/-- State of the `GoodsMarket` (goods.py lines 34-44). -/
structure GoodsMarketState where
  total_sales : ℚ := 0
  average_price : ℚ := 1
  excess_demand : ℚ := 0
  inflation : ℚ := 0
  previous_price : ℚ := 1
deriving DecidableEq

/-- The per-firm update inside `GoodsMarket.clear` (goods.py lines 96-109):
allocate the firm's demand share, realise sales against inventory value,
and let the firm adapt its markup.  The source calls
`firm.adapt_markup(firm_excess)` with NO rng argument, so markup noise is
never applied here even when `markup_noise_std > 0`. -/
def goodsUpdateFirm (total_demand weight_sum max_price : ℚ) (f : Firm) :
    Firm × ℚ :=
  let w := pymax (max_price - f.price + eps) eps
  let share := w / weight_sum
  let demand_for_firm := total_demand * share
  let available := f.inventory * f.price
  let actual_sales := pymin demand_for_firm available
  let quantity_sold := actual_sales / pymax f.price eps
  let f1 := { f with
    inventory := pymax (f.inventory - quantity_sold) 0
    turnover := actual_sales }
  let firm_excess := (demand_for_firm - available) / pymax available eps
  (f1.adapt_markup firm_excess none, actual_sales)

/-- `GoodsMarket.clear` (goods.py lines 63-120).  Demand is the sum of
household consumptions plus government expenditure; supply is inventory
value over non-bankrupt firms; demand is allocated by price
competitiveness weights `max(max_price - price + 1e-9, 1e-9)`.  The
`rngDraws` argument models the scheduler-owned generator in scope during
clearing; the source consumes nothing from it in this method. -/
def goodsMarketClear (rngDraws : ℕ → ℚ) (households : List Household)
    (govExpenditure : ℚ) (firms : List Firm) (g : GoodsMarketState) :
    List Firm × GoodsMarketState :=
  let active := firms.filter (fun f => ¬ f.bankrupt)
  let total_demand := (households.map (fun h => h.consumption)).sum + govExpenditure
  let total_supply := (active.map (fun f => f.inventory * f.price)).sum
  let g1 := { g with excess_demand := total_demand - total_supply }
  if active.isEmpty then (firms, { g1 with total_sales := 0 })
  else
    let max_price :=
      match active.map (fun f => f.price) with
      | [] => 0
      | p :: ps => ps.foldl pymax p
    let weight_sum := (active.map (fun f => pymax (max_price - f.price + eps) eps)).sum
    let updated := firms.map (fun f =>
      if f.bankrupt then f
      else (goodsUpdateFirm total_demand weight_sum max_price f).1)
    let sales := (active.map (fun f =>
      (goodsUpdateFirm total_demand weight_sum max_price f).2)).sum
    let active2 := updated.filter (fun f => ¬ f.bankrupt)
    let avg := (active2.map (fun f => f.price)).sum / (active2.length : ℚ)
    let prev := g1.average_price
    let infl := if 0 < prev then (avg - prev) / prev else g1.inflation
    (updated,
      { g1 with
        total_sales := sales
        previous_price := prev
        average_price := avg
        inflation := infl })

/-! ## Evaluation (`abm/evaluation.py`)

Python float NaN is modelled by `Option ℚ`: `none` is NaN, `some v` a
finite value.  The overall score is `sqrt(wss / total_weight)`; since
square roots of non-negative rationals are not rationals in general, the
score is represented by `EvalScore.val q`, denoting the real number
`sqrt q`.  The map `q ↦ sqrt q` is injective and order-preserving on
non-negative arguments and fixes 0, so equalities with 0 and the
finite/infinite distinction transfer faithfully. -/

/-- `TargetStat` (evaluation.py lines 35-53). -/
structure TargetStat where
  name : String
  target_value : ℚ
  tolerance : ℚ
  weight : ℚ := 1
deriving DecidableEq

/-- `StatResult` (evaluation.py lines 56-78); `simulated` and `deviation`
are `none` when the Python value is NaN. -/
structure StatResult where
  name : String
  simulated : Option ℚ
  target : ℚ
  deviation : Option ℚ
  tolerance : ℚ
  passed : Bool
  weight : ℚ
deriving DecidableEq

/-- The per-target branch of `evaluate_simulation` (evaluation.py lines
345-365): a NaN statistic (or a zero target value) yields a NaN deviation
and `passed = False`; otherwise the relative deviation and the tolerance
test.  `stats name = none` models `stats.get(name, float("nan"))` being
NaN, i.e. the statistic is missing or was computed as NaN. -/
def evaluate_target (stats : String → Option ℚ) (t : TargetStat) : StatResult :=
  match stats t.name with
  | none =>
    { name := t.name, simulated := none, target := t.target_value,
      deviation := none, tolerance := t.tolerance, passed := false,
      weight := t.weight }
  | some v =>
    if t.target_value = 0 then
      { name := t.name, simulated := some v, target := t.target_value,
        deviation := none, tolerance := t.tolerance, passed := false,
        weight := t.weight }
    else
      { name := t.name, simulated := some v, target := t.target_value,
        deviation := some ((v - t.target_value) / |t.target_value|),
        tolerance := t.tolerance,
        passed := decide (|v - t.target_value| ≤ t.tolerance),
        weight := t.weight }

/-- `evaluate_simulation` (evaluation.py lines 310-367) restricted to its
per-target loop: evaluate every target against the computed statistics. -/
def evaluate_simulation (stats : String → Option ℚ) (targets : List TargetStat) :
    List StatResult :=
  targets.map (evaluate_target stats)

/-- `sum(r.weight for r in self.results)` (evaluation.py line 99): the
denominator of the overall score, summed over ALL results, NaN or not. -/
def total_weight (results : List StatResult) : ℚ :=
  (results.map (fun r => r.weight)).sum

/-- `sum(r.weight * r.deviation**2 for r in self.results if not
math.isnan(r.deviation))` (evaluation.py lines 102-106): the numerator,
which skips NaN deviations. -/
def weighted_squared_sum (results : List StatResult) : ℚ :=
  (results.filterMap (fun r => r.deviation.map (fun d => r.weight * (d * d)))).sum

/-- The value of `EvaluationReport.overall_score`: either `inf`, or
`val q` denoting the real number `sqrt q`. -/
inductive EvalScore where
  | inf : EvalScore
  | val : ℚ → EvalScore
deriving DecidableEq

/-- `EvaluationReport.overall_score` (evaluation.py lines 91-107): `inf`
when there are no results or the total weight is zero, else
`sqrt(wss / total_weight)`, written here as `val (wss / total_weight)`. -/
def overall_score (results : List StatResult) : EvalScore :=
  if results.isEmpty then EvalScore.inf
  else if total_weight results = 0 then EvalScore.inf
  else EvalScore.val (weighted_squared_sum results / total_weight results)

/-! ## Scheduler wiring (`abm/model.py`)

`Simulation.initialize_agents` (model.py lines 136-211) ends by wiring the
three markets:

    self.goods_market.set_agents(self.firms, self.households, self.government)
    self.labor_market.set_agents(self.firms, self.households, self._rng)
    self.credit_market.set_agents(self.firms, self.banks, self._rng)

Python raises `TypeError` when a call passes more positional arguments
than the callee accepts.  The acceptable positional-argument counts
(excluding `self`) are read off the `def set_agents` signatures:
`GoodsMarket.set_agents(firms, households, government=None)` takes 2-3,
`LaborMarket.set_agents(firms, households, rng=None)` takes 2-3, and
`CreditMarket.set_agents(firms, banks)` takes exactly 2
(credit.py lines 46-58: it has no rng parameter). -/

/-- A Python positional call: `ok` iff the number of arguments passed lies
within the callee's accepted range, else a `TypeError`. -/
def pythonCall (minArgs maxArgs nargs : ℕ) : Except String Unit :=
  if nargs < minArgs ∨ maxArgs < nargs then Except.error "TypeError"
  else Except.ok ()

/-- Fewest positional arguments of `GoodsMarket.set_agents` (goods.py lines 46-61). -/
def goodsSetAgentsMin : ℕ := 2
/-- Most positional arguments of `GoodsMarket.set_agents` (goods.py lines 46-61). -/
def goodsSetAgentsMax : ℕ := 3
/-- Fewest positional arguments of `LaborMarket.set_agents` (labor.py lines 49-64). -/
def laborSetAgentsMin : ℕ := 2
/-- Most positional arguments of `LaborMarket.set_agents` (labor.py lines 49-64). -/
def laborSetAgentsMax : ℕ := 3
/-- Fewest positional arguments of `CreditMarket.set_agents` (credit.py lines 46-58). -/
def creditSetAgentsMin : ℕ := 2
/-- Most positional arguments of `CreditMarket.set_agents` (credit.py lines 46-58). -/
def creditSetAgentsMax : ℕ := 2

/-- The market-wiring tail of `Simulation.initialize_agents`
(model.py lines 208-211), modelling each `set_agents` call by its
positional-argument count. -/
def initialize_agents_wiring : Except String Unit := do
  pythonCall goodsSetAgentsMin goodsSetAgentsMax 3
  pythonCall laborSetAgentsMin laborSetAgentsMax 3
  pythonCall creditSetAgentsMin creditSetAgentsMax 3


/-! ## Concrete states used by the claim theorems -/

/-- Household for the adaptive-expectations claim: initial income 1000,
wealth 5000, default mpc 0.8 and behavior (alpha = 0.3, smoothing = 0.7),
currently unemployed with no transfers. -/
def c2household : Household :=
  { income := 1000, wealth := 5000, employed := false, wage := 0 }

/-- The same household viewed through the spec model, with the initial
expected income equal to the initial income as the spec requires. -/
def c2householdSpec : HouseholdSpec :=
  { base := c2household, expected_income := 1000 }

/-- Bank for the lending-rate claim: defaults (no loans, no NPL, default
behavior with base markup 0.02 and risk premium sensitivity 0.05). -/
def c3bank : Bank := {}

/-! ## Claim theorems -/

/-- C1: the spec claims that, for the default configuration with seed 42
and small populations, `initialize_agents` followed by `run(5)` succeeds
and emits five records.  In fact `initialize_agents` always raises
`TypeError`: model.py line 211 passes three positional arguments
`(firms, banks, rng)` to `CreditMarket.set_agents`, whose signature
(credit.py lines 46-58) accepts only two, so `run` is never reached.
This theorem evaluates the wiring at that failing call. -/
theorem C1_initialize_agents_type_error :
    initialize_agents_wiring = Except.error "TypeError" ∧
    pythonCall creditSetAgentsMin creditSetAgentsMax 3 =
      Except.error "TypeError" ∧
    pythonCall goodsSetAgentsMin goodsSetAgentsMax 3 = Except.ok () ∧
    pythonCall laborSetAgentsMin laborSetAgentsMax 3 = Except.ok () :=
  ⟨rfl, rfl, rfl, rfl⟩

/-- C2: the spec claims `Household.step` first updates an adaptive
expected income (`expected := alpha * realised + (1 - alpha) * expected`)
and consumes out of the EXPECTED income.  The source `Household` stores no
expected income at all and `_consume` uses the realised income: for a
household with initial income 1000 (so spec-side initial expectation
1000), wealth 5000, mpc 0.8, alpha 0.3, smoothing 0.7 that becomes
unemployed, the code consumes 60 while the spec's state machine consumes
620.  (The repository's own tests, `TestAdaptiveExpectations` in
tests/test_bounded_rationality.py, require the spec behaviour and fail on
the source class.) -/
theorem C2_no_adaptive_expected_income :
    c2household.step.consumption = 60 ∧
    c2householdSpec.step.base.consumption = 620 ∧
    c2householdSpec.step.expected_income = 700 ∧
    (60 : ℚ) ≠ 620 := by
  refine ⟨?_, ?_, ?_, by norm_num⟩ <;>
    norm_num [c2household, c2householdSpec, Household.step,
      Household.receive_income, Household.consume, Household.save,
      HouseholdSpec.step, pymin, pymax]

/-- C3: the spec claims `Bank.step` sets the lending rate from the
last-known policy rate r for every r.  The source's `step`
(bank.py line 97) calls `_set_lending_rate(policy_rate=0.05)` with the
literal 0.05: after `set_policy_rate(0.01)` has set the rate to 0.03, a
subsequent `step()` overwrites it with 0.07, not the claimed
`0.01 + 0.02 + 0.05 * 0 = 0.03`. -/
theorem C3_step_ignores_policy_rate :
    (c3bank.set_policy_rate (1 / 100)).interest_rate = 3 / 100 ∧
    ((c3bank.set_policy_rate (1 / 100)).step).interest_rate = 7 / 100 ∧
    (7 / 100 : ℚ) ≠
      1 / 100 + c3bank.behavior.base_interest_markup +
        c3bank.behavior.risk_premium_sensitivity * 0 := by
  refine ⟨?_, ?_, ?_⟩ <;>
    norm_num [c3bank, Bank.set_policy_rate, Bank.set_lending_rate, Bank.step,
      Bank.calculate_income, Bank.update_capital, pymax]

/-- C4 counterexample: the claim says a NaN target contributes zero to the
DENOMINATOR of the weighted RMS and that the overall score is infinity
when no target has a valid statistic.  Evaluating one target against
all-NaN statistics: every deviation is NaN, yet the overall score is
`sqrt 0 = 0`, not infinity (the NaN target's weight 2 stays in the
denominator while the numerator is empty). -/
theorem C4_counterexample :
    (∀ r ∈ evaluate_simulation (fun _ => none)
        [{ name := "gdp_growth_mean", target_value := 1 / 200,
           tolerance := 3 / 1000, weight := 2 }],
      r.deviation = none) ∧
    overall_score (evaluate_simulation (fun _ => none)
        [{ name := "gdp_growth_mean", target_value := 1 / 200,
           tolerance := 3 / 1000, weight := 2 }]) = EvalScore.val 0 ∧
    EvalScore.val 0 ≠ EvalScore.inf := by
  refine ⟨?_, ?_, by simp⟩
  · intro r hr
    simp [evaluate_simulation, evaluate_target] at hr
    rw [hr]
  · norm_num [evaluate_simulation, evaluate_target, overall_score,
      total_weight, weighted_squared_sum]

/-- All-NaN result lists have an empty weighted squared sum. -/
theorem weighted_squared_sum_of_all_nan (results : List StatResult)
    (h : ∀ x ∈ results, x.deviation = none) :
    weighted_squared_sum results = 0 := by
  induction results with
  | nil => rfl
  | cons r rs ih =>
    have hr : r.deviation = none := h r (List.mem_cons_self r rs)
    have hrs : ∀ x ∈ rs, x.deviation = none := fun x hx =>
      h x (List.mem_cons_of_mem r hx)
    simp [weighted_squared_sum, List.filterMap_cons, hr] at ih ⊢
    exact ih hrs

/-- C4 amended: a target whose statistic is NaN is reported with NaN
deviation and `passed = false` and contributes zero to the NUMERATOR of
the weighted RMS, but its weight stays in the denominator; when no target
has a valid statistic (and the result list is non-empty with non-zero
total weight) the overall score is 0, and the score is infinity exactly
when there are no results at all or the total weight is zero. -/
theorem C4_nan_handling (stats : String → Option ℚ) (t : TargetStat)
    (r : StatResult) (rs results : List StatResult) :
    (stats t.name = none →
      (evaluate_target stats t).deviation = none ∧
      (evaluate_target stats t).passed = false) ∧
    (r.deviation = none →
      weighted_squared_sum (r :: rs) = weighted_squared_sum rs ∧
      total_weight (r :: rs) = r.weight + total_weight rs) ∧
    ((∀ x ∈ results, x.deviation = none) → results ≠ [] →
      total_weight results ≠ 0 → overall_score results = EvalScore.val 0) ∧
    overall_score [] = EvalScore.inf := by
  refine ⟨?_, ?_, ?_, rfl⟩
  · intro h
    simp [evaluate_target, h]
  · intro h
    constructor
    · simp [weighted_squared_sum, List.filterMap_cons, h]
    · simp [total_weight]
  · intro hall hne hw
    have hempty : results.isEmpty = false := by
      cases results with
      | nil => exact absurd rfl hne
      | cons a l => rfl
    rw [overall_score, hempty]
    simp only [Bool.false_eq_true, if_false, hw, if_false]
    rw [weighted_squared_sum_of_all_nan results hall]
    simp

/-- Witness for `C4_nan_handling`, at a concrete all-NaN single-target
evaluation with weight 2. -/
theorem C4_nan_handling_witness :
    ((fun (_ : String) => (none : Option ℚ)) "unemployment_mean" = none) ∧
    (evaluate_target (fun _ => none)
      { name := "unemployment_mean", target_value := 9 / 200,
        tolerance := 1 / 100, weight := 2 }).passed = false ∧
    overall_score
      [{ name := "unemployment_mean", simulated := none, target := 9 / 200,
         deviation := none, tolerance := 1 / 100, passed := false,
         weight := 2 }] = EvalScore.val 0 := by
  have h := C4_nan_handling (fun _ => none)
    { name := "unemployment_mean", target_value := 9 / 200,
      tolerance := 1 / 100, weight := 2 }
    { name := "unemployment_mean", simulated := none, target := 9 / 200,
      deviation := none, tolerance := 1 / 100, passed := false, weight := 2 }
    []
    [{ name := "unemployment_mean", simulated := none, target := 9 / 200,
       deviation := none, tolerance := 1 / 100, passed := false, weight := 2 }]
  refine ⟨rfl, (h.1 rfl).2, h.2.2.1 ?_ ?_ ?_⟩
  · intro x hx
    simp at hx
    rw [hx]
  · simp
  · norm_num [total_weight]

/-- Firm for the bankruptcy-threshold claim: equity -0.6, capital 1, no
employees, no turnover, default behavior config (capacity utilisation
0.85, so the code threshold is -0.85 while firms.exit_threshold is -0.5). -/
def c5firm : Firm :=
  { equity := -(3 / 5), capital := 1, behavior := some {} }

/-- C5: the spec claims the bankruptcy check fires exactly when
`equity < 0`, `capital > 0` and `equity / capital` is below the configured
`firms.exit_threshold` (-0.5 by default).  The source
(firm.py lines 158-162) instead compares against
`-capacity_utilization_target` (-0.85 with defaults): for a firm whose
post-update equity/capital ratio is -0.6 the spec's condition holds — and
the webapp documents `firm_exit_threshold` as the "Equity/assets ratio
triggering bankruptcy" — yet the code leaves `bankrupt = false`. -/
theorem C5_exit_threshold_not_used :
    c5firm.update_financials.bankrupt = false ∧
    c5firm.update_financials.equity < 0 ∧
    0 < c5firm.capital ∧
    c5firm.update_financials.equity / c5firm.capital <
      ({} : FirmConfig).exit_threshold ∧
    c5firm.bankruptcyThreshold = -(85 / 100) := by
  refine ⟨?_, ?_, ?_, ?_, ?_⟩ <;>
    norm_num [c5firm, Firm.update_financials, Firm.bankruptcyThreshold,
      pymin, pymax, eps]

/-- Central bank for the Taylor-rule claim, in the S4 scenario: default
config (target 0.02, kappas 1.5 and 0.5, rho 0.8, lower bound 0.001),
after `update_observations(0.05, 0.0)`. -/
def c6cb : CentralBank :=
  (CentralBank.mk_from_config {}).update_observations (1 / 20) 0

/-- C6 counterexample: the claim says every step smooths against the
policy rate in effect immediately before that step.  In the S4 scenario
(default config, observations 0.05 and 0), the rate after two steps is
0.029 — the second step reuses the pre-first-step rate 0.02 — whereas
smoothing against the rate in effect before the second step (0.029) would
give `max(0.8 * 0.029 + 0.2 * 0.065, 0.001) = 0.0362`. -/
theorem C6_counterexample :
    c6cb.step.step.policy_rate = 29 / 1000 ∧
    c6cb.step.policy_rate = 29 / 1000 ∧
    c6cb.step.step.policy_rate ≠
      pymax (c6cb.taylor.interest_rate_smoothing * c6cb.step.policy_rate +
        (1 - c6cb.taylor.interest_rate_smoothing) * c6cb.step.target_rate)
        c6cb.taylor.lower_bound := by
  refine ⟨?_, ?_, ?_⟩ <;>
    norm_num [c6cb, CentralBank.mk_from_config, CentralBank.update_observations,
      CentralBank.step, CentralBank.target_rate, pymax]

/-- C6 amended: each active step sets the new policy rate to
`max(rho * r_lag + (1 - rho) * target, lower_bound)` where `r_lag` is the
stored `_previous_rate` — the policy rate that was in effect immediately
before the PREVIOUS step (initially the initial rate), not the rate in
effect immediately before this step; hence over two consecutive steps the
second smooths against the pre-first-step rate.  The first S4 step still
yields 0.029 as claimed. -/
theorem C6_policy_rate_recurrence (cb : CentralBank)
    (h : cb.taylor.active = true) :
    cb.step.policy_rate =
      pymax (cb.taylor.interest_rate_smoothing * cb.previous_rate +
        (1 - cb.taylor.interest_rate_smoothing) * cb.target_rate)
        cb.taylor.lower_bound ∧
    cb.step.previous_rate = cb.policy_rate ∧
    cb.step.step.policy_rate =
      pymax (cb.taylor.interest_rate_smoothing * cb.policy_rate +
        (1 - cb.taylor.interest_rate_smoothing) * cb.target_rate)
        cb.taylor.lower_bound ∧
    c6cb.step.policy_rate = 29 / 1000 := by
  have hstep : ∀ x : CentralBank, x.taylor.active = true →
      x.step = { x with
        previous_rate := x.policy_rate
        policy_rate := pymax (x.taylor.interest_rate_smoothing * x.previous_rate +
          (1 - x.taylor.interest_rate_smoothing) * x.target_rate)
          x.taylor.lower_bound } := by
    intro x hx
    rw [CentralBank.step, hx]
    simp
  have h1 := hstep cb h
  have htaylor : cb.step.taylor = cb.taylor := by rw [h1]
  have h2 := hstep cb.step (by rw [htaylor, h])
  have htarget : cb.step.target_rate = cb.target_rate := by
    rw [CentralBank.target_rate, CentralBank.target_rate, h1]
  refine ⟨by rw [h1], by rw [h1], ?_, ?_⟩
  · rw [h2, htaylor, htarget, h1]
  · norm_num [c6cb, CentralBank.mk_from_config, CentralBank.update_observations,
      CentralBank.step, CentralBank.target_rate, pymax]

/-- Witness for `C6_policy_rate_recurrence` at the concrete S4 central
bank, whose Taylor rule is active. -/
theorem C6_policy_rate_recurrence_witness :
    c6cb.taylor.active = true ∧
    c6cb.step.policy_rate =
      pymax (c6cb.taylor.interest_rate_smoothing * c6cb.previous_rate +
        (1 - c6cb.taylor.interest_rate_smoothing) * c6cb.target_rate)
        c6cb.taylor.lower_bound ∧
    c6cb.step.step.policy_rate =
      pymax (c6cb.taylor.interest_rate_smoothing * c6cb.policy_rate +
        (1 - c6cb.taylor.interest_rate_smoothing) * c6cb.target_rate)
        c6cb.taylor.lower_bound := by
  have h := C6_policy_rate_recurrence c6cb rfl
  exact ⟨rfl, h.1, h.2.2.1⟩

/-- Bankrupt firm with debt 50 for the default-distribution claim. -/
def c7firm : Firm := { debt := 50, bankrupt := true }

/-- First bank holding loans 100 for the default-distribution claim. -/
def c7bankA : Bank := { loans := 100 }

/-- Second bank holding loans 100 for the default-distribution claim. -/
def c7bankB : Bank := { loans := 100, reserves := 1 }

/-- C7: the spec claims a bankrupt firm's debt D is distributed pro rata
(`D * loans_i / total loans`) so the total NPL increase is
`D * default_rate_base`.  The source (credit.py lines 90-95) gives EVERY
lending bank `min(D, loans_i) * default_rate_base`: with one bankrupt firm
of debt 50 and two banks of 100 loans each (base 0.01), each bank's NPL
rises by 0.5 — not the pro-rata 0.25 — and the total is 1, not
`50 * 0.01 = 0.5`.  (The source's own comment at credit.py line 90 says
"Distribute default across banks proportionally".) -/
theorem C7_defaults_not_pro_rata :
    ((process_defaults {} [c7firm] [c7bankA, c7bankB]).1.map
      (fun b => b.non_performing_loans)) = [1 / 2, 1 / 2] ∧
    (1 / 2 : ℚ) ≠ c7firm.debt * c7bankA.loans /
      (c7bankA.loans + c7bankB.loans) * ({} : CreditMarketConfig).default_rate_base ∧
    (1 / 2 + 1 / 2 : ℚ) ≠
      c7firm.debt * ({} : CreditMarketConfig).default_rate_base := by
  refine ⟨?_, ?_, ?_⟩ <;>
    norm_num [process_defaults, processDefaultsOneFirm, Bank.record_default,
      c7firm, c7bankA, c7bankB, pymin]

/-- C8: the spec claims the scheduler RNG is passed to noisy credit
scoring and noisy markup adaptation, so runs differing only in RNG state
can produce different approval decisions and post-clearing markups.  The
source market code never forwards any rng: `_process_applications` calls
`evaluate_loan` without an rng argument (credit.py lines 120-124 — and
`CreditMarket.set_agents` cannot even receive a generator) and
`GoodsMarket.clear` calls `adapt_markup` without one (goods.py line 109).
Hence clearing results are identical for ALL states of the scheduler
generator, for every agent population, noisy configurations included,
refuting the claim. -/
theorem C8_rng_never_consumed (draws1 draws2 : ℕ → ℚ) (rationing : Bool)
    (cfg : CreditMarketConfig) (firms : List Firm) (banks : List Bank)
    (households : List Household) (govExpenditure : ℚ)
    (g : GoodsMarketState) :
    process_applications rationing draws1 firms banks =
      process_applications rationing draws2 firms banks ∧
    creditMarketClear cfg draws1 firms banks =
      creditMarketClear cfg draws2 firms banks ∧
    goodsMarketClear draws1 households govExpenditure firms g =
      goodsMarketClear draws2 households govExpenditure firms g :=
  ⟨rfl, rfl, rfl⟩

/-- Firm behavior config for the satisficing claim: defaults except an
aspiration rate of 0.3 (speed 0.1, window 4, no noise). -/
def c9cfg : FirmBehaviorConfig := { satisficing_aspiration_rate := 3 / 10 }

/-- Firm for the satisficing claim: profit 600 on turnover 1000 (profit
rate 0.6, above the 0.3 aspiration), empty history. -/
def c9firm : Firm := { profit := 600, turnover := 1000, behavior := some c9cfg }

/-- C9 counterexample: the claim says the damped (satisficed) adjustment
`0.1 * speed * excess` occurs only when the history is FULL (exactly
`satisficing_window` entries), and that a shorter history always gets the
full `speed * excess`.  After a single prior `adapt_markup` call the
history of `c9firm` holds 2 < 4 entries with mean 0.6 >= 0.3, and the
next adjustment at excess 1 is `0.1 * 0.1 * 1 = 0.01`, not
`0.1 * 1 = 0.1`. -/
theorem C9_counterexample :
    ((c9firm.adapt_markup 1 none).historyAfterAppend).length <
      c9cfg.satisficing_window ∧
    (c9firm.adapt_markup 1 none).markupAdjustment 1 = 1 / 100 ∧
    (c9firm.adapt_markup 1 none).markupAdjustment 1 ≠
      (c9firm.adapt_markup 1 none).speedOf * 1 := by
  refine ⟨?_, ?_, ?_⟩ <;>
    norm_num [c9firm, c9cfg, Firm.adapt_markup, Firm.noisedAdjustment,
      applyMarkupFloor, Firm.markupAdjustment,
      Firm.satisficedAfterAppend, Firm.historyAfterAppend, Firm.profit_rate,
      Firm.speedOf, Firm.aspirationOf, Firm.windowOf, Firm.noiseStdOf,
      pushBounded, historyMean, pymax, pyabs, eps]

/-- C9 amended: with noise disabled, after the profit rate is appended the
adjustment is `0.1 * speed * excess` exactly when the post-append history
holds AT LEAST 2 entries (not a full window) and its mean is at least the
aspiration rate; in every other case it is `speed * excess`.  The
equivalence is stated for non-degenerate signals
(`speed * excess` different from its damped tenth), since the two
branches coincide at zero. -/
theorem C9_satisficing_condition (f : Firm) (e : ℚ) :
    (f.markupAdjustment e =
      if 2 ≤ f.historyAfterAppend.length ∧
          f.aspirationOf ≤ historyMean f.historyAfterAppend
        then f.speedOf * e * (1 / 10)
        else f.speedOf * e) ∧
    (f.speedOf * e ≠ f.speedOf * e * (1 / 10) →
      (f.markupAdjustment e = f.speedOf * e * (1 / 10) ↔
        2 ≤ f.historyAfterAppend.length ∧
        f.aspirationOf ≤ historyMean f.historyAfterAppend)) := by
  have hbranch : f.markupAdjustment e =
      if 2 ≤ f.historyAfterAppend.length ∧
          f.aspirationOf ≤ historyMean f.historyAfterAppend
        then f.speedOf * e * (1 / 10)
        else f.speedOf * e := by
    rw [Firm.markupAdjustment, Firm.satisficedAfterAppend]
    by_cases hc : 2 ≤ f.historyAfterAppend.length ∧
        f.aspirationOf ≤ historyMean f.historyAfterAppend
    · rw [if_pos hc, if_pos (decide_eq_true hc)]
    · rw [if_neg hc, if_neg]
      intro hd
      exact hc (of_decide_eq_true hd)
  refine ⟨hbranch, ?_⟩
  intro hne
  rw [hbranch]
  by_cases hc : 2 ≤ f.historyAfterAppend.length ∧
      f.aspirationOf ≤ historyMean f.historyAfterAppend
  · rw [if_pos hc]
    exact ⟨fun _ => hc, fun _ => rfl⟩
  · rw [if_neg hc]
    exact ⟨fun hq => absurd hq hne, fun hq => absurd hq hc⟩

/-- Witness for `C9_satisficing_condition` at the concrete satisficed firm
after one warm-up call, with excess demand 1 (so `speed * excess = 0.1`
differs from its damped tenth 0.01). -/
theorem C9_satisficing_condition_witness :
    ((c9firm.adapt_markup 1 none).speedOf * 1 ≠
      (c9firm.adapt_markup 1 none).speedOf * 1 * (1 / 10)) ∧
    ((c9firm.adapt_markup 1 none).markupAdjustment 1 =
      (c9firm.adapt_markup 1 none).speedOf * 1 * (1 / 10) ↔
      2 ≤ (c9firm.adapt_markup 1 none).historyAfterAppend.length ∧
      (c9firm.adapt_markup 1 none).aspirationOf ≤
        historyMean (c9firm.adapt_markup 1 none).historyAfterAppend) := by
  have hne : (c9firm.adapt_markup 1 none).speedOf * 1 ≠
      (c9firm.adapt_markup 1 none).speedOf * 1 * (1 / 10) := by
    norm_num [c9firm, c9cfg, Firm.adapt_markup, Firm.noisedAdjustment,
      applyMarkupFloor, Firm.speedOf,
      Firm.markupAdjustment, Firm.satisficedAfterAppend,
      Firm.historyAfterAppend, Firm.profit_rate, Firm.windowOf,
      Firm.noiseStdOf, Firm.aspirationOf, pushBounded, historyMean,
      pymax, pyabs, eps]
  exact ⟨hne, (C9_satisficing_condition (c9firm.adapt_markup 1 none) 1).2 hne⟩

/-- `a <= pymax a b`, the floor property of Python `max(a, .)`. -/
theorem le_pymax_left (a b : ℚ) : a ≤ pymax a b := by
  rw [pymax]
  split
  · exact le_refl a
  · next hlt => exact le_of_not_le hlt

/-- The guarded write never takes the markup below the 0.01 floor. -/
theorem applyMarkupFloor_preserves (m adj : ℚ) (h : 1 / 100 ≤ m) :
    1 / 100 ≤ applyMarkupFloor m adj := by
  rw [applyMarkupFloor]
  split
  · exact le_pymax_left _ _
  · exact h

/-- One `adapt_markup` call preserves the markup floor. -/
theorem adapt_markup_preserves_floor (f : Firm) (e : ℚ) (d : Option ℚ)
    (h : 1 / 100 ≤ f.markup) : 1 / 100 ≤ (f.adapt_markup e d).markup :=
  applyMarkupFloor_preserves f.markup (f.noisedAdjustment e d) h

/-- C10: for every firm satisfying the markup invariant
`markup >= 0.01`, any finite sequence of `adapt_markup` calls — with any
excess-demand values and any optional rng noise draws — leaves
`markup >= 0.01`. -/
theorem C10_markup_floor (f : Firm) (calls : List (ℚ × Option ℚ))
    (h : 1 / 100 ≤ f.markup) :
    1 / 100 ≤ (f.adaptMarkupCalls calls).markup := by
  induction calls generalizing f with
  | nil => exact h
  | cons c cs ih =>
    exact ih (f.adapt_markup c.1 c.2) (adapt_markup_preserves_floor f c.1 c.2 h)

/-- Witness for `C10_markup_floor`: a default firm (markup 0.15) hit by
negative signals and noise draws keeps `markup >= 0.01`. -/
theorem C10_markup_floor_witness :
    (1 / 100 : ℚ) ≤ ({} : Firm).markup ∧
    1 / 100 ≤ (Firm.adaptMarkupCalls {}
      [(-5, none), (1, some (-3)), (-2, some 7)]).markup :=
  ⟨by norm_num, C10_markup_floor {} [(-5, none), (1, some (-3)), (-2, some 7)]
    (by norm_num)⟩
